import Mathlib

/-!
Verification of the intella-hiring-challenges backend: a FastAPI application
(src/backend/src/main.py) exposing a single health-check route
(src/backend/src/routes/health.py) behind a permissive CORS middleware.

The embedding models HTTP requests and responses as records, the route table
registered at startup, framework dispatch, the CORS middleware as configured
in main.py, and a state-threading request loop. Framework-level behavior
(dispatch defaults, CORS header attachment, preflight handling, server
startup) lives outside the repository's two source files; those definitions
are modelled from the spec and marked as such in their doc comments.
-/

/-- An HTTP request: method, path, query parameters, headers and body.
Header names are kept lowercase, as the framework normalizes them. -/
structure Request where
  method : String
  path : String
  query : List (String × String)
  headers : List (String × String)
  body : String
deriving Repr, DecidableEq

/-- An HTTP response: status code, headers and body. -/
structure Response where
  status : Nat
  headers : List (String × String)
  body : String
deriving Repr, DecidableEq

/-- The first value bound to a header name, if any. -/
def headerLookup (hs : List (String × String)) (k : String) : Option String :=
  (hs.find? (fun p => p.1 = k)).map Prod.snd

/-- Compact JSON serialization of a string-to-string mapping, as the framework
serializes the handler's return value. -/
def jsonObject (kvs : List (String × String)) : String :=
  "\x7b" ++
    String.intercalate ","
      (kvs.map (fun kv => "\"" ++ kv.1 ++ "\":\"" ++ kv.2 ++ "\"")) ++
  "\x7d"

/-- From src/backend/src/routes/health.py: the dictionary returned by the
handler health_check. -/
def health_check : List (String × String) := [("status", "ok")]

/-- Primitive steps a handler body can take, for the execution-shape claims:
a suspension point (an await), a blocking call, a lock acquisition, a raised
exception, or a normal return of a string dictionary. -/
inductive Stmt where
  | awaitPoint : Stmt
  | blockingCall : Stmt
  | acquireLock : Stmt
  | raiseErr : String → Stmt
  | ret : List (String × String) → Stmt
deriving Repr, DecidableEq

/-- The body of health_check from src/backend/src/routes/health.py: a single
return of the dict literal, nothing else. -/
def health_check_body : List Stmt := [Stmt.ret [("status", "ok")]]

/-- Run a handler body: a raised exception is an error, a return yields the
returned value, falling off the end yields none. -/
def execBody : List Stmt → Except String (Option (List (String × String)))
  | [] => Except.ok none
  | Stmt.raiseErr m :: _ => Except.error m
  | Stmt.ret d :: _ => Except.ok (some d)
  | Stmt.awaitPoint :: rest => execBody rest
  | Stmt.blockingCall :: rest => execBody rest
  | Stmt.acquireLock :: rest => execBody rest

/-- Whether running a body succeeds (reaches no raise). -/
def execSucceeds (e : Except String (Option (List (String × String)))) : Bool :=
  match e with
  | Except.ok _ => true
  | Except.error _ => false

/-- A statement is a suspension point. -/
def suspends : Stmt → Bool
  | Stmt.awaitPoint => true
  | _ => false

/-- A statement blocks on I/O. -/
def isBlocking : Stmt → Bool
  | Stmt.blockingCall => true
  | _ => false

/-- A statement acquires a lock. -/
def takesLock : Stmt → Bool
  | Stmt.acquireLock => true
  | _ => false

/-- The route table built at startup: app.include_router in main.py registers
the single route declared by the router.get decorator in health.py. -/
def routes : List (String × String) := [("GET", "/health")]

/-- Modelled from the spec: framework dispatch. Routing is exact-match on
(method, path) against the registered routes; a matched route runs the
health handler and serializes its value as a JSON 200 response; a known path
with an unregistered method gets the framework-default 405; anything else
gets the framework-default 404. -/
def dispatchWith (rs : List (String × String)) (req : Request) : Response :=
  if (req.method, req.path) ∈ rs then
    { status := 200,
      headers := [("content-type", "application/json")],
      body := jsonObject health_check }
  else if rs.any (fun r => r.2 = req.path) then
    { status := 405,
      headers := [("content-type", "text/plain; charset=utf-8")],
      body := "Method Not Allowed" }
  else
    { status := 404,
      headers := [("content-type", "text/plain; charset=utf-8")],
      body := "Not Found" }

/-- Dispatch over the registered route table. -/
def dispatch : Request → Response := dispatchWith routes

/-- CORS configuration from main.py: allow_credentials=True. -/
def allow_credentials : Bool := true

/-- Modelled from the spec: the CORS headers the middleware attaches to
responses under the main.py configuration (allow any origin, allow
credentials, allow any method, allow any header). The allow-origin value is
the echoed request origin when credentials are allowed and an origin is
present, and the wildcard otherwise. -/
def corsHeadersFor (origin : Option String) : List (String × String) :=
  [("access-control-allow-origin",
      match origin with
      | some o => if allow_credentials then o else "*"
      | none => "*"),
   ("access-control-allow-credentials",
      if allow_credentials then "true" else "false"),
   ("access-control-allow-methods", "*"),
   ("access-control-allow-headers", "*")]

/-- Modelled from the spec: a CORS preflight is an OPTIONS request bearing
both an Origin header and an Access-Control-Request-Method header. -/
def isPreflight (req : Request) : Bool :=
  req.method = "OPTIONS"
    && (headerLookup req.headers "origin").isSome
    && (headerLookup req.headers "access-control-request-method").isSome

/-- Modelled from the spec: the full application, the CORS middleware from
main.py wrapping framework dispatch over a route table. A preflight is
answered by the middleware itself with a success response carrying the allow
headers; any other request is dispatched and its response gets the CORS
headers appended. -/
def appWith (rs : List (String × String)) (req : Request) : Response :=
  if isPreflight req then
    { status := 200,
      headers := corsHeadersFor (headerLookup req.headers "origin"),
      body := "OK" }
  else
    let r := dispatchWith rs req
    { r with headers := r.headers ++ corsHeadersFor (headerLookup req.headers "origin") }

/-- The application as configured in main.py. -/
def app : Request → Response := appWith routes

/-- Server-side state visible to handlers: the dispatch table registered at
startup and the module-level mutable bindings (the two source files declare
none, so the latter starts and stays empty). -/
structure AppState where
  routes : List (String × String)
  globals : List (String × String)
deriving Repr, DecidableEq

/-- State after startup: the health route is registered, no globals. -/
def initialState : AppState := { routes := routes, globals := [] }

/-- One request/response cycle of the server: the handler reads no mutable
state and writes none, so the state component is returned unchanged. -/
def step (s : AppState) (req : Request) : AppState × Response :=
  (s, appWith s.routes req)

/-- Serve a sequence of requests, threading the server state through. -/
def serveAll : AppState → List Request → AppState × List Response
  | s, [] => (s, [])
  | s, r :: rs =>
    let p := step s r
    let q := serveAll p.1 rs
    (q.1, p.2 :: q.2)

/-- Outcome of starting the server: serving, or the process exited with a
status code and a diagnostic message. -/
inductive StartResult where
  | serving : StartResult
  | exited : Nat → String → StartResult
deriving Repr, DecidableEq

/-- Modelled from the spec: start(bindAddress) binds and begins serving; the
repository ships no launcher under src/, and §4.1/§7 of the spec state that
an unavailable address or port is fatal at startup: the process exits with a
non-zero status and a diagnostic, with no in-process recovery. The
environment is abstracted as an availability predicate on bind addresses. -/
def start (bindAddress : String) (available : String → Bool) : StartResult :=
  if available bindAddress then
    StartResult.serving
  else
    StartResult.exited 1 ("failed to bind " ++ bindAddress ++ ": address or port unavailable")

/- Helper lemmas on header lookup. -/

/-- Lookup at a matching head. -/
theorem headerLookup_cons_self (k v : String) (t : List (String × String)) :
    headerLookup ((k, v) :: t) k = some v := by
  simp [headerLookup, List.find?]

/-- Lookup skips a non-matching head. -/
theorem headerLookup_cons_ne (k k' v : String) (t : List (String × String))
    (h : ¬ k' = k) :
    headerLookup ((k', v) :: t) k = headerLookup t k := by
  simp [headerLookup, List.find?, h]

/-- serveAll never changes the server state. -/
theorem serveAll_fst (s : AppState) (reqs : List Request) :
    (serveAll s reqs).1 = s := by
  induction reqs with
  | nil => rfl
  | cons r rs ih => simpa [serveAll, step] using ih

/-- serveAll maps each request independently through the application. -/
theorem serveAll_snd (s : AppState) (reqs : List Request) :
    (serveAll s reqs).2 = reqs.map (fun r => appWith s.routes r) := by
  induction reqs with
  | nil => rfl
  | cons r rs ih => simp [serveAll, step, ih]

/- Concrete requests used by witnesses and counterexamples. -/

/-- A plain GET /health request with no headers. -/
def reqHealth : Request :=
  { method := "GET", path := "/health", query := [], headers := [], body := "" }

/-- A GET /health request bearing an Origin header. -/
def reqHealthOrigin : Request :=
  { method := "GET", path := "/health", query := [],
    headers := [("origin", "http://example.com")], body := "" }

/-- A CORS preflight on /health: OPTIONS with Origin and
Access-Control-Request-Method headers. -/
def reqPreflight : Request :=
  { method := "OPTIONS", path := "/health", query := [],
    headers := [("origin", "http://example.com"),
                ("access-control-request-method", "GET")],
    body := "" }

/-- C1: every GET /health request, whatever its query string, headers or
body, is answered with status 200, body exactly the JSON object
with the single pair status/ok, and content-type application/json. -/
theorem c1_health_get_ok (req : Request)
    (hm : req.method = "GET") (hp : req.path = "/health") :
    (app req).status = 200 ∧
    (app req).body = "\x7b\"status\":\"ok\"\x7d" ∧
    headerLookup (app req).headers "content-type" = some "application/json" := by
  obtain ⟨m, p, q, hs, b⟩ := req
  simp only at hm hp
  subst hm hp
  exact ⟨rfl, rfl, rfl⟩

/-- C1 witness: the plain GET /health request gets the 200 JSON response. -/
theorem c1_health_get_ok_witness :
    (app reqHealth).status = 200 ∧
    (app reqHealth).body = "\x7b\"status\":\"ok\"\x7d" ∧
    headerLookup (app reqHealth).headers "content-type" = some "application/json" :=
  c1_health_get_ok reqHealth rfl rfl

/-- C2 counterexample: the claim says every request whose method is not GET
or whose path is not /health gets the framework-default not-found or
method-not-allowed response, never a 200; but a CORS preflight
(OPTIONS /health with Origin and Access-Control-Request-Method headers) is
answered by the middleware with a 200. -/
theorem c2_exact_routing_counterexample :
    reqPreflight.method ≠ "GET" ∧
    reqPreflight.path = "/health" ∧
    (app reqPreflight).status = 200 := by
  refine ⟨?_, rfl, rfl⟩
  decide

/-- C2 (amended): for every request that is not a CORS preflight, if its
method is not GET or its path is not /health then no handler is registered
for it and the framework default applies: the response status is 404 or 405,
in particular not 200. -/
theorem c2_exact_routing (req : Request)
    (hpre : isPreflight req = false)
    (h : ¬ (req.method = "GET" ∧ req.path = "/health")) :
    (app req).status ≠ 200 ∧
    ((app req).status = 404 ∨ (app req).status = 405) := by
  obtain ⟨m, p, q, hs, b⟩ := req
  simp only at h hpre
  by_cases hp : p = "/health"
  · subst hp
    have hm : ¬ m = "GET" := fun hm => h ⟨hm, rfl⟩
    constructor <;>
      simp [app, appWith, hpre, dispatchWith, routes, hm]
  · constructor <;>
      simp [app, appWith, hpre, dispatchWith, routes, hp, Ne.symm hp]

/-- C2 witness: POST /health is not a preflight and gets a 405, and
GET /unknown gets a 404; neither is a 200. -/
theorem c2_exact_routing_witness :
    ((app { method := "POST", path := "/health", query := [], headers := [], body := "" }).status ≠ 200 ∧
     ((app { method := "POST", path := "/health", query := [], headers := [], body := "" }).status = 404 ∨
      (app { method := "POST", path := "/health", query := [], headers := [], body := "" }).status = 405)) ∧
    ((app { method := "GET", path := "/unknown", query := [], headers := [], body := "" }).status ≠ 200 ∧
     ((app { method := "GET", path := "/unknown", query := [], headers := [], body := "" }).status = 404 ∨
      (app { method := "GET", path := "/unknown", query := [], headers := [], body := "" }).status = 405)) :=
  ⟨c2_exact_routing _ rfl (by simp),
   c2_exact_routing _ rfl (by simp)⟩

/-- Every application response's header list is the CORS header block,
possibly preceded by a single content-type header from dispatch. -/
theorem appWith_headers_shape (rs : List (String × String)) (req : Request) :
    ∃ ct : String,
      (appWith rs req).headers = corsHeadersFor (headerLookup req.headers "origin") ∨
      (appWith rs req).headers =
        ("content-type", ct) :: corsHeadersFor (headerLookup req.headers "origin") := by
  unfold appWith dispatchWith
  by_cases h1 : isPreflight req
  · exact ⟨"", by simp [h1]⟩
  · by_cases h2 : (req.method, req.path) ∈ rs
    · exact ⟨"application/json", by simp [h1, h2]⟩
    · by_cases h3 : rs.any (fun r => r.2 = req.path)
      · exact ⟨"text/plain; charset=utf-8", by simp [h1, h2, h3]⟩
      · exact ⟨"text/plain; charset=utf-8", by simp [h1, h2, h3]⟩

/-- Looking up any header other than content-type in an application response
reaches the CORS block. -/
theorem app_cors_lookup (req : Request) (k : String)
    (hk : ¬ "content-type" = k) :
    headerLookup (app req).headers k =
      headerLookup (corsHeadersFor (headerLookup req.headers "origin")) k := by
  obtain ⟨ct, h | h⟩ := appWith_headers_shape routes req
  · simp only [app]
    rw [h]
  · simp only [app]
    rw [h, headerLookup_cons_ne _ _ _ _ hk]

/-- The allow-origin value the middleware attaches: the echoed origin when
one is present, the wildcard otherwise. -/
theorem corsHeadersFor_allow_origin (o : Option String) :
    headerLookup (corsHeadersFor o) "access-control-allow-origin" = some (o.getD "*") := by
  cases o <;> rfl

/-- The allow-credentials value the middleware attaches. -/
theorem corsHeadersFor_allow_credentials (o : Option String) :
    headerLookup (corsHeadersFor o) "access-control-allow-credentials" = some "true" := by
  cases o <;> rfl

/-- The allow-methods value the middleware attaches. -/
theorem corsHeadersFor_allow_methods (o : Option String) :
    headerLookup (corsHeadersFor o) "access-control-allow-methods" = some "*" := by
  cases o <;> rfl

/-- The allow-headers value the middleware attaches. -/
theorem corsHeadersFor_allow_headers (o : Option String) :
    headerLookup (corsHeadersFor o) "access-control-allow-headers" = some "*" := by
  cases o <;> rfl

/-- C3: every response carries the permissive CORS headers — an allow-origin
header whose value is the wildcard or the echoed request origin,
allow-credentials true, and allow-methods and allow-headers set to the
wildcard; and in particular a GET /health request bearing an Origin header
gets a 200 with the unchanged body and an allow-origin header present. -/
theorem c3_cors_on_all_responses :
    (∀ req : Request,
       (∃ v, headerLookup (app req).headers "access-control-allow-origin" = some v ∧
          (v = "*" ∨ headerLookup req.headers "origin" = some v)) ∧
       headerLookup (app req).headers "access-control-allow-credentials" = some "true" ∧
       headerLookup (app req).headers "access-control-allow-methods" = some "*" ∧
       headerLookup (app req).headers "access-control-allow-headers" = some "*") ∧
    (∀ req : Request, req.method = "GET" → req.path = "/health" →
       (headerLookup req.headers "origin").isSome = true →
       (app req).status = 200 ∧
       (app req).body = "\x7b\"status\":\"ok\"\x7d" ∧
       (headerLookup (app req).headers "access-control-allow-origin").isSome = true) := by
  constructor
  · intro req
    refine ⟨⟨(headerLookup req.headers "origin").getD "*", ?_, ?_⟩, ?_, ?_, ?_⟩
    · rw [app_cors_lookup req _ (by decide), corsHeadersFor_allow_origin]
    · cases ho : headerLookup req.headers "origin" with
      | none => exact Or.inl rfl
      | some o => exact Or.inr rfl
    · rw [app_cors_lookup req _ (by decide), corsHeadersFor_allow_credentials]
    · rw [app_cors_lookup req _ (by decide), corsHeadersFor_allow_methods]
    · rw [app_cors_lookup req _ (by decide), corsHeadersFor_allow_headers]
  · intro req hm hp _ho
    refine ⟨?_, ?_, ?_⟩
    · obtain ⟨m, p, q, hs, b⟩ := req
      simp only at hm hp
      subst hm hp
      rfl
    · obtain ⟨m, p, q, hs, b⟩ := req
      simp only at hm hp
      subst hm hp
      rfl
    · rw [app_cors_lookup req _ (by decide), corsHeadersFor_allow_origin]
      rfl

/-- C3 witness: the GET /health request with an Origin header gets a 200,
the unchanged body, and an allow-origin header. -/
theorem c3_cors_on_all_responses_witness :
    (app reqHealthOrigin).status = 200 ∧
    (app reqHealthOrigin).body = "\x7b\"status\":\"ok\"\x7d" ∧
    (headerLookup (app reqHealthOrigin).headers "access-control-allow-origin").isSome = true :=
  c3_cors_on_all_responses.2 reqHealthOrigin rfl rfl rfl

/-- C4: the health endpoint is idempotent and stateless — serving any number
of repeated identical GET /health requests leaves the server state exactly
as it was and returns the same response, the response to a single such
request, every time. -/
theorem c4_idempotent_stateless (req : Request) (n : Nat)
    (_hm : req.method = "GET") (_hp : req.path = "/health") :
    serveAll initialState (List.replicate n req) =
      (initialState, List.replicate n (app req)) := by
  have hresp : appWith initialState.routes req = app req := rfl
  have h1 := serveAll_fst initialState (List.replicate n req)
  have h2 := serveAll_snd initialState (List.replicate n req)
  rw [List.map_replicate, hresp] at h2
  exact Prod.ext h1 h2

/-- C4 witness: three repeated plain GET /health requests. -/
theorem c4_idempotent_stateless_witness :
    serveAll initialState (List.replicate 3 reqHealth) =
      (initialState, List.replicate 3 (app reqHealth)) :=
  c4_idempotent_stateless reqHealth 3 rfl rfl

/-- C5: the handler output does not depend on request data — any two
GET /health requests, however they differ in query parameters, headers or
body, produce the same dispatched response. -/
theorem c5_handler_noninterference (r1 r2 : Request)
    (h1m : r1.method = "GET") (h1p : r1.path = "/health")
    (h2m : r2.method = "GET") (h2p : r2.path = "/health") :
    dispatch r1 = dispatch r2 := by
  obtain ⟨m1, p1, q1, hs1, b1⟩ := r1
  obtain ⟨m2, p2, q2, hs2, b2⟩ := r2
  simp only at h1m h1p h2m h2p
  subst h1m h1p h2m h2p
  rfl

/-- C5 witness: two GET /health requests differing in query, headers and
body dispatch to the same response. -/
theorem c5_handler_noninterference_witness :
    dispatch { method := "GET", path := "/health", query := [("a", "1")],
               headers := [("x-extra", "yes")], body := "ignored" } =
    dispatch reqHealth :=
  c5_handler_noninterference _ _ rfl rfl rfl rfl

/-- C6: handler execution cannot fail — running the body of health_check
reaches no error branch and returns normally with the fixed payload. -/
theorem c6_handler_cannot_fail :
    execBody health_check_body = Except.ok (some health_check) ∧
    execSucceeds (execBody health_check_body) = true :=
  ⟨rfl, rfl⟩

/-- C7: the handler has no side effects — a request/response step returns
the server state unchanged (routes and globals alike) and only produces the
response, and no sequence of requests changes the state either. -/
theorem c7_no_side_effects (s : AppState) (req : Request) (reqs : List Request) :
    (step s req).1 = s ∧
    (step s req).2 = appWith s.routes req ∧
    (serveAll s reqs).1 = s :=
  ⟨rfl, rfl, serveAll_fst s reqs⟩

/-- C8: the handler never suspends — its body contains no suspension point,
no blocking call and no lock acquisition, and consists of a single step. -/
theorem c8_no_suspension :
    health_check_body.all
      (fun st => !(suspends st) && !(isBlocking st) && !(takesLock st)) = true ∧
    health_check_body.length = 1 :=
  ⟨rfl, rfl⟩

/-- C9: start binds and serves when the address is available, and when it is
not, the process exits with a non-zero status and a non-empty diagnostic. -/
theorem c9_start_failure_fatal (bindAddress : String) (available : String → Bool) :
    (available bindAddress = true → start bindAddress available = StartResult.serving) ∧
    (available bindAddress = false →
      ∃ code diag, start bindAddress available = StartResult.exited code diag ∧
        code ≠ 0 ∧ diag.length > 0) := by
  constructor
  · intro h
    simp [start, h]
  · intro h
    refine ⟨1, "failed to bind " ++ bindAddress ++ ": address or port unavailable", ?_, ?_, ?_⟩
    · simp [start, h]
    · decide
    · simp [String.length_append]
      exact Or.inl (Or.inl (by decide))

/-- C9 witness: with no address available, starting on 0.0.0.0:8000 exits
with a non-zero status and a diagnostic. -/
theorem c9_start_failure_fatal_witness :
    ∃ code diag, start "0.0.0.0:8000" (fun _ => false) = StartResult.exited code diag ∧
      code ≠ 0 ∧ diag.length > 0 :=
  (c9_start_failure_fatal "0.0.0.0:8000" (fun _ => false)).2 rfl

/-- C10: a CORS preflight — an OPTIONS request on any path with an Origin
header and an Access-Control-Request-Method header — is answered by the
middleware itself with a 200 carrying the allow headers, not by the
framework's not-found handling. -/
theorem c10_preflight_handled (req : Request)
    (hm : req.method = "OPTIONS")
    (ho : (headerLookup req.headers "origin").isSome = true)
    (ha : (headerLookup req.headers "access-control-request-method").isSome = true) :
    (app req).status = 200 ∧
    (app req).status ≠ 404 ∧
    headerLookup (app req).headers "access-control-allow-methods" = some "*" ∧
    headerLookup (app req).headers "access-control-allow-headers" = some "*" ∧
    (headerLookup (app req).headers "access-control-allow-origin").isSome = true := by
  have hpre : isPreflight req = true := by
    simp [isPreflight, hm, ho, ha]
  have happ : app req =
      { status := 200,
        headers := corsHeadersFor (headerLookup req.headers "origin"),
        body := "OK" } := by
    simp [app, appWith, hpre]
  rw [happ]
  refine ⟨rfl, ?_, ?_, ?_, ?_⟩
  · simp
  · exact corsHeadersFor_allow_methods _
  · exact corsHeadersFor_allow_headers _
  · rw [corsHeadersFor_allow_origin]
    rfl

/-- C10 witness: the concrete preflight OPTIONS /health request is answered
with a 200 carrying the allow headers. -/
theorem c10_preflight_handled_witness :
    (app reqPreflight).status = 200 ∧
    (app reqPreflight).status ≠ 404 ∧
    headerLookup (app reqPreflight).headers "access-control-allow-methods" = some "*" ∧
    headerLookup (app reqPreflight).headers "access-control-allow-headers" = some "*" ∧
    (headerLookup (app reqPreflight).headers "access-control-allow-origin").isSome = true :=
  c10_preflight_handled reqPreflight rfl rfl rfl
